import Mathlib

/-!
# Verification of the GP-SOLDERS academy backend

Shallow embedding, in Lean 4, of the request handlers and text-parsing
heuristics of the GP-SOLDERS Express + Mongoose backend, together with
proofs settling the frozen specification claims.

The repository is a family of near-duplicate server variants.  The
definitions below are translated from the variants that the claims cite:

* `src/backend/server.js`, first document (plaintext login, submit-exam
  with case-insensitive scoring, conduct with a title-uniqueness guard);
* `src/backend/server.js`, second document (PDF upload pipeline:
  `parseQuestionsFromText`, set-answer, finalize);
* `src/unnamed/part_000` (hardened variant: regex extractor capped at
  100 questions);
* `src/unnamed/part_003` (JWT/bcrypt variant: case-sensitive scoring,
  duplicate-submission guard);
* `src/unnamed/part_004` (relaxed extractor with placeholder options);
* `src/unnamed/part_005` (conduct without a draft-existence check).

JavaScript strings are modelled as Lean `String` (one `Char` per UTF-16
code unit; every character appearing in this code base is in the Basic
Multilingual Plane, where the two notions agree).  JavaScript numbers
that the handlers only ever use as integers are modelled as `Int` or
`Nat`.  MongoDB documents live in association lists keyed by `Nat`
(standing for ObjectIds); the store operations `findById`,
`findByIdAndDelete`, `findOne` and `save` are modelled by list lookup,
erasure, search and replacement/append.  Handlers are pure functions
from a database value to a response paired with the successor database;
a handler that can throw an uncaught exception returns an `Option`
(`none` = the request dies without a JSON response).
-/

/-! ## JavaScript string primitives -/

/-- The character class matched by the JavaScript regex `\s` and trimmed
by `String.prototype.trim` (WhiteSpace plus LineTerminator). -/
def isJsWs (c : Char) : Bool :=
  c = ' ' || c = '\t' || c = '\n' || c = '\r' ||
  c.val = 0x0B || c.val = 0x0C || c.val = 0xA0 || c.val = 0x1680 ||
  (0x2000 ≤ c.val && c.val ≤ 0x200A) ||
  c.val = 0x2028 || c.val = 0x2029 || c.val = 0x202F || c.val = 0x205F ||
  c.val = 0x3000 || c.val = 0xFEFF

/-- Both-ends trimming on character lists. -/
def jsTrimList (cs : List Char) : List Char :=
  ((cs.dropWhile isJsWs).reverse.dropWhile isJsWs).reverse

/-- JavaScript `s.trim()`. -/
def jsTrim (s : String) : String :=
  String.mk (jsTrimList s.toList)

/-- JavaScript `s.toLowerCase()`.  The inputs handled by this code base
are ASCII letters, digits, punctuation and Kannada script (which has no
case), for which the ASCII mapping of `Char.toLower` agrees with the
JavaScript function. -/
def jsToLower (s : String) : String :=
  String.mk (s.toList.map Char.toLower)

/-- JavaScript `s.toUpperCase()` (same ASCII caveat as `jsToLower`). -/
def jsToUpper (s : String) : String :=
  String.mk (s.toList.map Char.toUpper)

/-- Helper for `jsSplitChar`: accumulates the current segment (reversed)
while scanning. -/
def jsSplitCharAux (sep : Char) : List Char → List Char → List String
  | buf, [] => [String.mk buf.reverse]
  | buf, c :: rest =>
    if c = sep then String.mk buf.reverse :: jsSplitCharAux sep [] rest
    else jsSplitCharAux sep (c :: buf) rest

/-- JavaScript `s.split(sep)` for a one-character separator string (as in
`rawText.split('\n')`).  Always returns at least one segment. -/
def jsSplitChar (sep : Char) (s : String) : List String :=
  jsSplitCharAux sep [] s.toList

/-! ## Case-insensitive scoring (`POST /submit-exam`, `src/backend/server.js`
first document, lines 343-377)

```js
let correct = 0;
exam.questions.forEach((q, i) => {
  if (q.correctAnswer.toLowerCase() === answers[i]?.toLowerCase()) {
    correct++;
  }
});
const wrong = exam.totalQuestions - correct;
```
`answers[i]` is `undefined` past the end of the array; the optional
chaining turns the comparison into `false` there. -/

/-- An embedded question of a live `Exam` document (schema
`{ imageUrl: String, correctAnswer: String }`).  Live exams carry a
string `correctAnswer` for every question: all creation paths copy it
from a draft.  (A missing `correctAnswer` would make the JavaScript
comparison throw; no claim concerns that unreachable shape.) -/
structure SExamQ where
  imageUrl : Option String := none
  correctAnswer : String
deriving Repr, DecidableEq

/-- The per-index comparison loop of the case-insensitive submit-exam
handler, recursing simultaneously on the question list and the answer
array.  When the answers run out the JavaScript index read yields
`undefined` and the guard is false, which is the `[]` case here. -/
def countCorrectCI : List SExamQ → List String → Nat
  | [], _ => 0
  | _ :: qs, [] => countCorrectCI qs []
  | q :: qs, a :: as =>
    (if jsToLower q.correctAnswer = jsToLower a then 1 else 0) + countCorrectCI qs as

/-- `countCorrectCI` seen through the `correctAnswer` projection only
(used to transport hypotheses stated on the list of stored answers). -/
def countAnsCI : List String → List String → Nat
  | [], _ => 0
  | _ :: cs, [] => countAnsCI cs []
  | c :: cs, a :: as =>
    (if jsToLower c = jsToLower a then 1 else 0) + countAnsCI cs as

/-! ## Case-sensitive scoring (`POST /submit-exam`, `src/unnamed/part_003`,
lines 239-273)

```js
let correct = 0;
exam.questions.forEach((q, i) => {
    if (q.correctAnswer === answers[i]) correct++;
});
```
Strict equality: `undefined` (missing answer entry) and `null` (missing
stored answer) never equal a string. -/

/-- An embedded question of the part_003 `Exam` schema
(`{ questionText, options, correctAnswer, imageUrl }`); `correctAnswer`
may be absent (`none`). -/
structure P3Question where
  questionText : String := ""
  options : List String := []
  correctAnswer : Option String
  imageUrl : Option String := none
deriving Repr, DecidableEq

/-- The strict-equality comparison loop of part_003. -/
def countCorrectCS : List P3Question → List String → Nat
  | [], _ => 0
  | _ :: qs, [] => countCorrectCS qs []
  | q :: qs, a :: as =>
    (if q.correctAnswer = some a then 1 else 0) + countCorrectCS qs as

/-- `countCorrectCS` through the `correctAnswer` projection. -/
def countAnsCS : List (Option String) → List String → Nat
  | [], _ => 0
  | _ :: cs, [] => countAnsCS cs []
  | c :: cs, a :: as =>
    (if c = some a then 1 else 0) + countAnsCS cs as

/-! ## Responses and the submit-exam handler state model -/

/-- A JSON response: HTTP status plus the `message`/`error` string of the
body (the only body fields the claims are about). -/
structure Resp where
  status : Nat
  body : String
deriving Repr, DecidableEq

/-- Association-list model of a MongoDB collection keyed by ObjectId.
`Model.findById` returns the first document with the given id. -/
def lookupById {α : Type} (l : List (Nat × α)) (i : Nat) : Option α :=
  (l.find? (fun p => p.1 = i)).map Prod.snd

/-- `Model.findByIdAndDelete`: remove the first document with the id. -/
def eraseById {α : Type} (l : List (Nat × α)) (i : Nat) : List (Nat × α) :=
  l.eraseP (fun p => p.1 = i)

/-- `document.save()` on an existing document: replace the stored copy.
ObjectIds are unique in a real collection, so replacing every entry with
the id is the same as replacing the one entry. -/
def replaceById {α : Type} (l : List (Nat × α)) (i : Nat) (a : α) : List (Nat × α) :=
  l.map (fun p => if p.1 = i then (i, a) else p)

/-- A live `Exam` document of the first `src/backend/server.js` variant. -/
structure SExam where
  title : String
  subject : String := ""
  classNum : Option Int := none
  testNumber : Int := 0
  totalQuestions : Int
  questions : List SExamQ
deriving Repr, DecidableEq

/-- A `Result` document as persisted by that variant's submit handler
(`studentRoll` is never set by this handler and stays absent). -/
structure SResult where
  studentMobile : String
  studentName : String
  examId : Nat
  examTitle : String
  examSubject : String
  examTestNumber : Int
  correct : Int
  wrong : Int
  score : Int
  total : Int
  answers : List String
deriving Repr, DecidableEq

/-- The collections touched by `POST /submit-exam`. -/
structure ScoringDB where
  exams : List (Nat × SExam)
  results : List SResult
deriving Repr, DecidableEq

/-- The request body of `POST /submit-exam`; `examId` is `none` when the
field is absent (the `!examId` guard). `answers` is already an array. -/
structure SubmitReq where
  examId : Option Nat
  answers : List String
  studentMobile : String := ""
  studentName : String := ""
deriving Repr, DecidableEq

/-- The `Result` document built by the handler for a located exam. -/
def submitResultOf (exam : SExam) (eid : Nat) (req : SubmitReq) : SResult :=
  let correct : Int := countCorrectCI exam.questions req.answers
  { studentMobile := req.studentMobile
    studentName := req.studentName
    examId := eid
    examTitle := exam.title
    examSubject := exam.subject
    examTestNumber := exam.testNumber
    correct := correct
    wrong := exam.totalQuestions - correct
    score := correct
    total := exam.totalQuestions
    answers := req.answers }

/-- `POST /submit-exam` of the first `src/backend/server.js` document
(lines 343-377): validate, locate the exam, score case-insensitively,
persist one `Result`. -/
def submitExam (db : ScoringDB) (req : SubmitReq) : Resp × ScoringDB :=
  match req.examId with
  | none => (⟨400, "Invalid data"⟩, db)
  | some eid =>
    match lookupById db.exams eid with
    | none => (⟨404, "Exam not found"⟩, db)
    | some exam =>
      (⟨200, "Exam submitted successfully!"⟩,
        { db with results := db.results ++ [submitResultOf exam eid req] })


/-! ## part_003 submit-exam with the duplicate-submission guard
(`src/unnamed/part_003`, lines 239-273) -/

/-- A live `Exam` document of the part_003 variant. -/
structure P3Exam where
  title : String
  subject : String := ""
  classNum : Option Int := none
  testNumber : Int := 0
  totalQuestions : Int
  questions : List P3Question
deriving Repr, DecidableEq

/-- A `Result` document of the part_003 variant. -/
structure P3Result where
  studentMobile : String
  studentName : String
  examId : Nat
  examTitle : String
  examSubject : String
  examTestNumber : Int
  correct : Int
  wrong : Int
  score : Int
  total : Int
  answers : List String
deriving Repr, DecidableEq

/-- The collections touched by the part_003 submit handler. -/
structure P3DB where
  exams : List (Nat × P3Exam)
  results : List P3Result
deriving Repr, DecidableEq

/-- The `Result` document built by the part_003 submit handler. -/
def submitResultOfP3 (exam : P3Exam) (eid : Nat)
    (mobile nm : String) (answers : List String) : P3Result :=
  let correct : Int := countCorrectCS exam.questions answers
  { studentMobile := mobile
    studentName := nm
    examId := eid
    examTitle := exam.title
    examSubject := exam.subject
    examTestNumber := exam.testNumber
    correct := correct
    wrong := exam.totalQuestions - correct
    score := correct
    total := exam.totalQuestions
    answers := answers }

/-- `POST /submit-exam` of part_003 (authenticated; `mobile`/`nm` come
from the verified token): locate the exam, reject a duplicate
submission for the same (student, exam) pair, score strictly, persist
one `Result`. -/
def submitExamP3 (db : P3DB) (mobile nm : String) (eid : Nat)
    (answers : List String) : Resp × P3DB :=
  match lookupById db.exams eid with
  | none => (⟨404, "Exam not found"⟩, db)
  | some exam =>
    if (db.results.find? fun r => r.studentMobile = mobile && r.examId = eid).isSome then
      (⟨400, "You have already submitted this exam"⟩, db)
    else
      (⟨200, "Exam submitted successfully"⟩,
        { db with results := db.results ++ [submitResultOfP3 exam eid mobile nm answers] })

/-! ## The exam-authoring pipeline of `src/backend/server.js`
(`/drafts` and `/conduct/:draftId` from the first document;
`/api/pdf-draft/:id/set-answer` and `/api/pdf-draft/:id/finalize`
from the second document) -/

/-- An embedded question of a `PdfQuestionDraft`
(`{ questionText, options, correctAnswer: { default: null } }`). -/
structure PdfQ where
  questionText : String
  options : List String
  correctAnswer : Option String
deriving Repr, DecidableEq

/-- A `PdfQuestionDraft` document. -/
structure PdfDraft where
  title : String
  subject : String := ""
  testNumber : Int := 0
  questions : List PdfQ
deriving Repr, DecidableEq

/-- An embedded question of a `DraftExam`
(`{ imageUrl: String, correctAnswer: String }`, both optional). -/
structure ADraftQ where
  imageUrl : Option String := none
  correctAnswer : Option String := none
deriving Repr, DecidableEq

/-- A `DraftExam` document (the first document's schema also declares
`classNum`; the second document's variants leave it absent). -/
structure ADraft where
  title : String
  subject : String := ""
  classNum : Option Int := none
  testNumber : Int := 0
  totalQuestions : Int
  questions : List ADraftQ
deriving Repr, DecidableEq

/-- A live `Exam` document produced by `/conduct/:draftId`. -/
structure AExam where
  title : String
  subject : String := ""
  classNum : Option Int := none
  testNumber : Int := 0
  totalQuestions : Int
  questions : List ADraftQ
deriving Repr, DecidableEq

/-- The collections touched by the authoring pipeline.  `nextId` models
the fresh ObjectId given to a newly inserted document. -/
structure AuthoringDB where
  pdfDrafts : List (Nat × PdfDraft)
  draftExams : List (Nat × ADraft)
  exams : List AExam
  nextId : Nat
deriving Repr, DecidableEq

/-- `POST /drafts` (first document, lines 278-304): upsert keyed by
title; `totalQuestions` is always recomputed as `questions.length`. -/
def postDrafts (db : AuthoringDB) (title subject : String) (testNumber : Int)
    (questions : List ADraftQ) : Resp × AuthoringDB :=
  if questions.length = 0 then
    (⟨400, "At least one question required"⟩, db)
  else
    match db.draftExams.find? (fun p => p.2.title = title) with
    | some (i, d) =>
      let d2 : ADraft :=
        { d with subject := subject, testNumber := testNumber,
                 questions := questions, totalQuestions := questions.length }
      (⟨200, "Draft saved"⟩, { db with draftExams := replaceById db.draftExams i d2 })
    | none =>
      (⟨200, "Draft saved"⟩,
        { db with
            draftExams := db.draftExams ++
              [(db.nextId, { title := title, subject := subject, testNumber := testNumber,
                             totalQuestions := questions.length, questions := questions })],
            nextId := db.nextId + 1 })

/-- The `Exam` document built by `/conduct/:draftId` from a draft. -/
def examOfDraft (d : ADraft) : AExam :=
  { title := d.title, subject := d.subject, classNum := d.classNum,
    testNumber := d.testNumber, totalQuestions := d.totalQuestions,
    questions := d.questions }

/-- `POST /conduct/:draftId` (first document, lines 306-326): 404 when
the draft id is unknown, 400 when an exam with the same title already
exists, otherwise copy the draft into a new `Exam` and delete the
draft. -/
def conduct (db : AuthoringDB) (draftId : Nat) : Resp × AuthoringDB :=
  match lookupById db.draftExams draftId with
  | none => (⟨404, "Draft not found"⟩, db)
  | some draft =>
    if (db.exams.find? fun e => e.title = draft.title).isSome then
      (⟨400, "Exam already conducted"⟩, db)
    else
      (⟨200, "Exam conducted successfully!"⟩,
        { db with exams := db.exams ++ [examOfDraft draft],
                  draftExams := eraseById db.draftExams draftId })

/-- JavaScript truthiness test `!q.correctAnswer` on an optional string
field: `null`/absent and the empty string are falsy. -/
def jsFalsyOptStr : Option String → Bool
  | none => true
  | some s => s = ""

/-- Replace the element at an index, leaving the list unchanged when the
index is out of range (used for the in-bounds array write
`draft.questions[questionIndex]`). -/
def modifyAt {α : Type} (i : Nat) (f : α → α) : List α → List α
  | [] => []
  | x :: xs =>
    match i with
    | 0 => f x :: xs
    | j + 1 => x :: modifyAt j f xs

/-- The updated `PdfQuestionDraft` written by set-answer: the question
at `qi` gets the uppercased answer letter. -/
def draftWithAnswer (d : PdfDraft) (qi : Nat) (ca : String) : PdfDraft :=
  { d with questions :=
      modifyAt qi (fun q => { q with correctAnswer := some (jsToUpper ca) }) d.questions }

/-- `PATCH /api/pdf-draft/:id/set-answer` (second document, lines
967-980): reject a missing index or falsy answer (400), an unknown
draft (404), an out-of-range index (400); otherwise persist the
uppercased answer.  `questionIndex` is `none` when the body field is
`null`/absent. -/
def setAnswer (db : AuthoringDB) (id : Nat) (questionIndex : Option Int)
    (correctAnswer : String) : Resp × AuthoringDB :=
  match questionIndex with
  | none => (⟨400, "Invalid data"⟩, db)
  | some qi =>
    if correctAnswer = "" then (⟨400, "Invalid data"⟩, db)
    else
      match lookupById db.pdfDrafts id with
      | none => (⟨404, "Draft not found"⟩, db)
      | some draft =>
        if qi < 0 || (draft.questions.length : Int) ≤ qi then
          (⟨400, "Invalid index"⟩, db)
        else
          (⟨200, "Updated"⟩,
            { db with pdfDrafts :=
                replaceById db.pdfDrafts id (draftWithAnswer draft qi.toNat correctAnswer) })

/-- The standard `DraftExam` built by finalize from a PDF draft: the
question list is mapped to `{ imageUrl: null, correctAnswer }` and
`totalQuestions` is the question count. -/
def draftOfPdf (d : PdfDraft) : ADraft :=
  { title := d.title, subject := d.subject, testNumber := d.testNumber,
    totalQuestions := d.questions.length,
    questions := d.questions.map fun q => { imageUrl := none, correctAnswer := q.correctAnswer } }

/-- `POST /api/pdf-draft/:id/finalize` (second document, lines
982-1002): 404 when the PDF draft is unknown, 400 when some question
still has a falsy `correctAnswer`, otherwise save one new `DraftExam`
and delete the PDF draft. -/
def finalize (db : AuthoringDB) (id : Nat) : Resp × AuthoringDB :=
  match lookupById db.pdfDrafts id with
  | none => (⟨404, "Draft not found"⟩, db)
  | some d =>
    if d.questions.any (fun q => jsFalsyOptStr q.correctAnswer) then
      (⟨400, "Missing answers"⟩, db)
    else
      (⟨200, "Finalized"⟩,
        { db with
            draftExams := db.draftExams ++ [(db.nextId, draftOfPdf d)],
            pdfDrafts := eraseById db.pdfDrafts id,
            nextId := db.nextId + 1 })

/-! ## part_005 conduct (no draft-existence check)
(`src/unnamed/part_005`, lines 243-249)

```js
app.post('/conduct/:draftId', async (req, res) => {
    const draft = await DraftExam.findById(req.params.draftId);
    const exam = new Exam({ ...draft.toObject(), conductedAt: new Date() });
    ...
});
```
When the draft id is unknown, `draft` is `null` and `draft.toObject()`
throws a `TypeError`; the handler has no try/catch, so no JSON response
is produced (`none` below). -/

/-- An embedded question of the part_005 `DraftExam`/`Exam` schemas. -/
structure P5Q where
  imageUrl : Option String := none
  questionText : Option String := none
  options : List String := []
  correctAnswer : Option String := none
deriving Repr, DecidableEq

/-- A part_005 `DraftExam` document. -/
structure P5Draft where
  title : String
  subject : String := ""
  testNumber : Int := 0
  totalQuestions : Int
  questions : List P5Q
deriving Repr, DecidableEq

/-- A part_005 `Exam` document. -/
structure P5Exam where
  title : String
  subject : String := ""
  classNum : Option Int := none
  testNumber : Int := 0
  totalQuestions : Int
  questions : List P5Q
deriving Repr, DecidableEq

/-- The collections touched by the part_005 conduct handler. -/
structure P5DB where
  draftExams : List (Nat × P5Draft)
  exams : List P5Exam
deriving Repr, DecidableEq

/-- The `Exam` built by the part_005 conduct spread
(`{ ...draft.toObject(), conductedAt: new Date() }`). -/
def examOfDraftP5 (d : P5Draft) : P5Exam :=
  { title := d.title, subject := d.subject, testNumber := d.testNumber,
    totalQuestions := d.totalQuestions, questions := d.questions }

/-- `POST /conduct/:draftId` of part_005: no existence check; an unknown
draft id makes the handler throw (`none`). -/
def conductP5 (db : P5DB) (draftId : Nat) : Option (Resp × P5DB) :=
  match lookupById db.draftExams draftId with
  | none => none
  | some d =>
    some (⟨200, "Live!"⟩,
      { db with exams := db.exams ++ [examOfDraftP5 d],
                draftExams := eraseById db.draftExams draftId })

/-! ## Student login (`POST /student-login`)

First document of `src/backend/server.js` (lines 147-162, plaintext
comparison) and `src/unnamed/part_003` (lines 147-166, bcrypt
comparison; the bcrypt library is an external collaborator and is
passed in as the `compare` function; the issued JWT is not modelled,
only the response class). -/

/-- A `Student` document. -/
structure Student where
  name : String
  roll : String := ""
  mobile : String
  password : String
deriving Repr, DecidableEq

/-- The outcome of a login request: an error response (status plus
`error` body) or a success payload. -/
inductive LoginResult where
  | failure (status : Nat) (error : String)
  | success (name : String) (mobile : String)
deriving Repr, DecidableEq

/-- `POST /student-login` of the first `src/backend/server.js` document:
missing fields → 400; no student with the mobile → 404 "Invalid
credentials"; stored password differs → 401 "Invalid credentials". -/
def studentLoginBackend (students : List Student) (mobile password : String) : LoginResult :=
  if mobile = "" || password = "" then .failure 400 "Mobile & password required"
  else
    match students.find? (fun s => s.mobile = mobile) with
    | none => .failure 404 "Invalid credentials"
    | some s =>
      if s.password ≠ password then .failure 401 "Invalid credentials"
      else .success s.name s.mobile

/-- `POST /student-login` of part_003: a missing student and a failed
bcrypt comparison produce the same 401 response. -/
def studentLoginP3 (compare : String → String → Bool)
    (students : List Student) (mobile password : String) : LoginResult :=
  match students.find? (fun s => s.mobile = mobile) with
  | none => .failure 401 "Invalid mobile or password"
  | some s =>
    if compare password s.password then .success s.name s.mobile
    else .failure 401 "Invalid mobile or password"

/-! ## The line-based question extractor
(`parseQuestionsFromText`, second document of `src/backend/server.js`,
lines 934-952)

```js
function parseQuestionsFromText(rawText) {
  const lines = rawText.split('\n').map(l => l.trim()).filter(l => l.length > 0);
  const questions = [];
  let current = null;
  const kannadaRegex = /^[ಎಬಿಸಿಡಿ]\)/;
  for (const line of lines) {
    if (/^\d+\./.test(line)) {
      if (current) questions.push(current);
      current = { questionText: line.replace(/^\d+\.\s*/, '').trim(), options: [] };
    } else if ((/^[A-D]\)/i.test(line)) || kannadaRegex.test(line)) {
      if (current) current.options.push(line.trim());
    } else if (current && current.options.length === 0) {
      current.questionText += ' ' + line.trim();
    }
  }
  if (current) questions.push(current);
  return questions.filter(q => q.options.length >= 3);
}
```
-/

/-- A question block built by the line-based extractor. -/
structure PQuestion where
  questionText : String
  options : List String
deriving Repr, DecidableEq

/-- The test `/^\d+\./.test(line)`. -/
def isQuestionStart (s : String) : Bool :=
  let ds := s.toList.takeWhile Char.isDigit
  !ds.isEmpty && (s.toList.drop ds.length).head? = some '.'

/-- `line.replace(/^\d+\.\s*/, '')` followed by `.trim()` (the branch
only runs on lines where the pattern matches, but the definition is
total: a non-matching line is returned trimmed and unchanged, exactly as
`replace` leaves it). -/
def stripQNum (s : String) : String :=
  let cs := s.toList
  let ds := cs.takeWhile Char.isDigit
  if ds.isEmpty then jsTrim s
  else
    match cs.drop ds.length with
    | '.' :: r => jsTrim (String.mk (r.dropWhile isJsWs))
    | _ => jsTrim s

/-- The characters of the class `[ಎಬಿಸಿಡಿ]` (the distinct code points of
that Kannada string: U+0C8E, U+0CAC, U+0CBF, U+0CB8, U+0CA1). -/
def kannadaOptChar (c : Char) : Bool :=
  c.val = 0x0C8E || c.val = 0x0CAC || c.val = 0x0CBF || c.val = 0x0CB8 || c.val = 0x0CA1

/-- The test `/^[A-D]\)/i.test(line) || /^[ಎಬಿಸಿಡಿ]\)/.test(line)`. -/
def isStrictOptionLine (s : String) : Bool :=
  match s.toList with
  | c0 :: c1 :: _ =>
    (('a' ≤ c0.toLower && c0.toLower ≤ 'd') || kannadaOptChar c0) && c1 = ')'
  | _ => false

/-- One iteration of the `for (const line of lines)` loop: the
accumulator is the pushed-questions list plus the `current` block. -/
def strictStep (acc : List PQuestion × Option PQuestion) (line : String) :
    List PQuestion × Option PQuestion :=
  let qs := acc.1
  let cur := acc.2
  if isQuestionStart line then
    (match cur with
     | some q => qs ++ [q]
     | none => qs,
     some ⟨stripQNum line, []⟩)
  else if isStrictOptionLine line then
    match cur with
    | some q => (qs, some ⟨q.questionText, q.options ++ [jsTrim line]⟩)
    | none => (qs, none)
  else
    match cur with
    | some q =>
      if q.options.isEmpty then (qs, some ⟨q.questionText ++ " " ++ jsTrim line, q.options⟩)
      else (qs, cur)
    | none => (qs, none)

/-- The block-collection phase of the extractor (everything before the
final `filter`): split into non-empty trimmed lines, run the loop, push
the trailing `current`. -/
def collectQuestions (rawText : String) : List PQuestion :=
  let lines := ((jsSplitChar '\n' rawText).map jsTrim).filter fun l => l.length > 0
  let acc := lines.foldl strictStep ([], none)
  match acc.2 with
  | some q => acc.1 ++ [q]
  | none => acc.1

/-- `parseQuestionsFromText` (second document of
`src/backend/server.js`): collected blocks filtered to those with at
least three option lines.  Note: this variant applies no cap on the
number of returned questions. -/
def parseQuestionsFromText (rawText : String) : List PQuestion :=
  (collectQuestions rawText).filter fun q => 3 ≤ q.options.length

/-! ## The relaxed block extractor with placeholder options
(`parseQuestionsFromText`, `src/unnamed/part_004`, lines 97-121)

```js
function parseQuestionsFromText(rawText) {
    const blocks = rawText.split(/\n\s*(\d+)[\.\)\-]\s+/).filter(b => b.trim().length > 5);
    let questions = [];
    for (let i = 0; i < blocks.length; i++) {
        const block = blocks[i].trim();
        if (!isNaN(block)) {
            const content = blocks[i+1] ? blocks[i+1].split('\n') : [];
            const questionText = content[0].trim();
            const optionRegex = /^[A-Dರ-ಹೞ-೟][\.\)\-]\s*/i;
            const options = content.filter(line => optionRegex.test(line.trim()));
            questions.push({
                questionText,
                options: options.length > 2 ? options : ["A) ", "B) ", "C) ", "D) "],
                correctAnswer: null
            });
            i++;
        }
    }
    return questions;
}
```
When a numeric block is the last element, `content` is `[]` and
`content[0].trim()` throws: the whole call fails (`none`). -/

/-- Exponent suffix of a JavaScript decimal numeric literal. -/
def jsExpPart : List Char → Bool
  | [] => true
  | e :: r =>
    if e = 'e' || e = 'E' then
      match r with
      | s :: d =>
        if s = '+' || s = '-' then !d.isEmpty && d.all Char.isDigit
        else !r.isEmpty && r.all Char.isDigit
      | [] => false
    else false

/-- Body of a JavaScript decimal numeric literal:
`digits [. digits] [exp]` or `. digits [exp]`. -/
def jsDecBody (cs : List Char) : Bool :=
  let intPart := cs.takeWhile Char.isDigit
  match cs.drop intPart.length with
  | '.' :: r =>
    let frac := r.takeWhile Char.isDigit
    (!intPart.isEmpty || !frac.isEmpty) && jsExpPart (r.drop frac.length)
  | r => !intPart.isEmpty && jsExpPart r

/-- The JavaScript test `!isNaN(s)` on a string: `Number(s)` is not
`NaN`.  Whitespace is trimmed; the empty string coerces to `0`; signed
decimal literals, `Infinity` and unsigned radix literals are numbers. -/
def jsIsNumeric (s : String) : Bool :=
  match jsTrimList s.toList with
  | [] => true
  | '+' :: r => r = "Infinity".toList || jsDecBody r
  | '-' :: r => r = "Infinity".toList || jsDecBody r
  | r =>
    r = "Infinity".toList || jsDecBody r ||
    (match r with
     | z :: x :: d =>
       z = '0' && ((x = 'x' || x = 'X') && !d.isEmpty && d.all (fun c => c.isDigit ||
           ('a' ≤ c.toLower && c.toLower ≤ 'f')) ||
         (x = 'b' || x = 'B') && !d.isEmpty && d.all (fun c => c = '0' || c = '1') ||
         (x = 'o' || x = 'O') && !d.isEmpty && d.all (fun c => '0' ≤ c && c ≤ '7'))
     | _ => false)

/-- Match of the split regex `\n\s*(\d+)[\.\)\-]\s+` anchored at the
head of the list (which must be the newline).  Returns the captured
digit run and the total matched length.  The character classes `\s` and
`\d` are disjoint from each other and from `[\.\)\-]`, so the greedy
quantifiers never backtrack. -/
def splitNumMatchAt : List Char → Option (List Char × Nat)
  | '\n' :: cs1 =>
    let ws := cs1.takeWhile isJsWs
    let r2 := cs1.drop ws.length
    let ds := r2.takeWhile Char.isDigit
    if ds.isEmpty then none
    else
      match r2.drop ds.length with
      | p :: r3 =>
        if p = '.' || p = ')' || p = '-' then
          let ws2 := r3.takeWhile isJsWs
          if ws2.isEmpty then none
          else some (ds, 1 + ws.length + ds.length + 1 + ws2.length)
        else none
      | [] => none
  | _ => none

/-- JavaScript `rawText.split(/\n\s*(\d+)[\.\)\-]\s+/)`: the segments
between successive leftmost matches, with the captured digit group
spliced between them.  (Every match is at least four characters long, so
`Nat.max len 1 = len`; the `max` only serves the termination metric.) -/
def jsSplitNumberedAux (buf : List Char) (cs : List Char) : List String :=
  match cs with
  | [] => [String.mk buf.reverse]
  | c :: rest =>
    match splitNumMatchAt (c :: rest) with
    | some (cap, len) =>
      String.mk buf.reverse :: String.mk cap ::
        jsSplitNumberedAux [] ((c :: rest).drop (Nat.max len 1))
    | none => jsSplitNumberedAux (c :: buf) rest
termination_by cs.length
decreasing_by
  · simp only [List.length_drop, List.length_cons]
    have h1 : 1 ≤ Nat.max len 1 := Nat.le_max_right _ _
    omega
  · simp

/-- JavaScript split with the capture group, at the `String` level. -/
def jsSplitNumbered (s : String) : List String :=
  jsSplitNumberedAux [] s.toList

/-- The test `optionRegex.test(line.trim())` for
`/^[A-Dರ-ಹೞ-೟][\.\)\-]\s*/i` (first character in
`A-D` case-insensitively or in the two Kannada ranges, second character
`.`/`)`/`-`; the trailing `\s*` matches the empty string). -/
def isRelaxedOptionLine (s : String) : Bool :=
  match s.toList with
  | c0 :: c1 :: _ =>
    (('a' ≤ c0.toLower && c0.toLower ≤ 'd') ||
     (0x0CB0 ≤ c0.val && c0.val ≤ 0x0CB9) ||
     (0x0CDE ≤ c0.val && c0.val ≤ 0x0CDF)) &&
    (c1 = '.' || c1 = ')' || c1 = '-')
  | _ => false

/-- A parsed question of the PDF extractors (shape
`{ questionText, options, correctAnswer: null }`). -/
structure PdfParsedQ where
  questionText : String
  options : List String
  correctAnswer : Option String := none
deriving Repr, DecidableEq

/-- `content.filter(line => optionRegex.test(line.trim()))` for a
content block (the lines of `blocks[i+1]`). -/
def recognizedOptions (nb : String) : List String :=
  (jsSplitChar '\n' nb).filter fun l => isRelaxedOptionLine (jsTrim l)

/-- The question pushed for a content block whose recognized options are
too few: the placeholder option list is substituted. -/
def placeholderQuestion (nb : String) : PdfParsedQ :=
  { questionText := jsTrim ((jsSplitChar '\n' nb).headD "")
    options := ["A) ", "B) ", "C) ", "D) "]
    correctAnswer := none }

/-- The indexed `for` loop of the part_004 extractor.  A numeric block
consumes the following block as its content and skips it (`i++`); a
numeric block in the last position makes `content[0].trim()` throw
(`none`). -/
def relaxedLoop : List String → Option (List PdfParsedQ)
  | [] => some []
  | b :: rest =>
    if jsIsNumeric (jsTrim b) then
      match rest with
      | [] => none
      | nb :: rest2 =>
        if nb = "" then none
        else
          let content := jsSplitChar '\n' nb
          let opts := recognizedOptions nb
          let q : PdfParsedQ :=
            { questionText := jsTrim (content.headD "")
              options := if 2 < opts.length then opts else ["A) ", "B) ", "C) ", "D) "]
              correctAnswer := none }
          (relaxedLoop rest2).map fun qs => q :: qs
    else relaxedLoop rest

/-- `parseQuestionsFromText` of `src/unnamed/part_004`: regex split with
capture, the `> 5` length filter, then the loop. -/
def parseQuestionsFromTextP004 (rawText : String) : Option (List PdfParsedQ) :=
  relaxedLoop ((jsSplitNumbered rawText).filter fun b => 5 < (jsTrim b).length)

/-! ## The capped regex question extractor
(`parseQuestionsFromText`, `src/unnamed/part_000`, lines 125-150)

```js
function parseQuestionsFromText(rawText) {
  const text = rawText.toLowerCase();
  const questions = [];
  const qRegex = /(?:^|\n)(?:q|\d+)[)\.\s]*([^\n]{50,})(?=(?:\n[a-d]\)|[\n\s]?(?:[ಎಬಿಸಿಡಿ]\)\s)))/gi;
  let match;
  while ((match = qRegex.exec(text)) !== null) {
    const qStart = match.index;
    const qText = match[1].trim().replace(/^\d+\.\s*/, '');
    const opts = [];
    let optRegex = /([a-d]\)|[ಎಬಿಸಿಡಿ]\))\s*([^\n]{10,})/gi;
    let optMatch;
    while ((optMatch = optRegex.exec(text.slice(qStart + 50))) && opts.length < 4) {
      opts.push(optMatch[0].trim());
    }
    if (opts.length >= 3) {
      questions.push({ questionText: qText, options: opts, correctAnswer: null });
    }
  }
  return questions.slice(0, 100);
}
```
The two regexes are embedded as explicit backtracking matchers: each
greedy quantifier enumerates its candidate splits longest-first and the
alternations are tried left to right, which is the order a JavaScript
engine uses.  `exec` with the `g` flag scans forward from `lastIndex`,
so the scanners below try each successive position and, on a match,
resume after its end. -/

/-- A live exam with stored answers A, B, C, D. -/
def c1Exam : SExam :=
  ⟨"T", "S", none, 1, 4, [⟨none, "A"⟩, ⟨none, "B"⟩, ⟨none, "C"⟩, ⟨none, "D"⟩]⟩

/-- The same stored answers in the part_003 question shape. -/
def c1P3Qs : List P3Question :=
  [⟨"", [], some "A", none⟩, ⟨"", [], some "B", none⟩,
   ⟨"", [], some "C", none⟩, ⟨"", [], some "D", none⟩]

/-- An exam document whose stored `totalQuestions` (0) is smaller than
its actual question count. -/
def c10Exam : SExam := ⟨"T", "S", none, 1, 0, [⟨none, "A"⟩]⟩

/-- A store holding only `c10Exam` under id 1. -/
def c10DB : ScoringDB := ⟨[(1, c10Exam)], []⟩

/-- A matching submission for `c10Exam`. -/
def c10Req : SubmitReq := ⟨some 1, ["A"], "m", "n"⟩

/-- A fully answered PDF draft with one question. -/
def c3PdfDraft : PdfDraft := ⟨"T", "S", 1, [⟨"Q1", ["A) x", "B) y", "C) z"], some "A"⟩]⟩

/-- A store holding only `c3PdfDraft` under id 1 and no exams. -/
def c3DB : AuthoringDB := ⟨[(1, c3PdfDraft)], [], [], 2⟩

/-- A store for the conduct witness: one draft under id 1, no exams. -/
def c4DB : AuthoringDB :=
  ⟨[], [(1, ⟨"T", "S", none, 1, 1, [⟨none, some "A"⟩]⟩)], [], 2⟩

/-- A part_005 store with one draft under id 1. -/
def c4P5DB : P5DB := ⟨[(1, ⟨"T", "S", 1, 1, [⟨none, some "Q", [], some "A"⟩]⟩)], []⟩

/-- The store after the first (successful) part_005 conduct call. -/
def c4P5DB1 : P5DB :=
  match conductP5 c4P5DB 1 with
  | some p => p.2
  | none => c4P5DB

/-- A store with one PDF draft (single question) under id 1. -/
def c7DB : AuthoringDB := ⟨[(1, ⟨"T", "S", 1, [⟨"Q", ["A) x"], none⟩]⟩)], [], [], 2⟩

/-- A student directory with one registered student. -/
def c8Students : List Student := [⟨"Alice", "1", "9999999999", "pw"⟩]

/-- A part_003 store with one live exam under id 1 and no results. -/
def c6DB : P3DB := ⟨[(1, ⟨"T", "S", none, 1, 1, [⟨"", [], some "A", none⟩]⟩)], []⟩

/-- A PDF draft whose single question still has a null answer. -/
def c3PdfDraftNull : PdfDraft := ⟨"U", "S", 1, [⟨"Q1", ["A) x", "B) y", "C) z"], none⟩]⟩

/-- A store holding only `c3PdfDraftNull` under id 1. -/
def c3DBNull : AuthoringDB := ⟨[(1, c3PdfDraftNull)], [], [], 2⟩

lemma countCorrectCI_eq_countAnsCI (qs : List SExamQ) (ans : List String) :
    countCorrectCI qs ans = countAnsCI (qs.map SExamQ.correctAnswer) ans := by
  induction qs generalizing ans with
  | nil => cases ans <;> rfl
  | cons q qs ih =>
    cases ans with
    | nil => simp [countCorrectCI, countAnsCI, ih]
    | cons a as => simp [countCorrectCI, countAnsCI, ih]

lemma countCorrectCI_nil_ans (qs : List SExamQ) : countCorrectCI qs [] = 0 := by
  induction qs with
  | nil => rfl
  | cons q qs ih => simpa [countCorrectCI] using ih

lemma countCorrectCS_eq_countAnsCS (qs : List P3Question) (ans : List String) :
    countCorrectCS qs ans = countAnsCS (qs.map P3Question.correctAnswer) ans := by
  induction qs generalizing ans with
  | nil => cases ans <;> rfl
  | cons q qs ih =>
    cases ans with
    | nil => simp [countCorrectCS, countAnsCS, ih]
    | cons a as => simp [countCorrectCS, countAnsCS, ih]

/-! ## Well-formedness of created drafts and exams

Every creation path of the pipeline stores `totalQuestions =
questions.length`, so a live exam reached through the API satisfies
that equation; claim C1 assumes it under the name "live Exam". -/

/-- `POST /drafts` only stores drafts with `totalQuestions =
questions.length`; pre-existing drafts are untouched. -/
theorem postDrafts_wf (db : AuthoringDB) (title subject : String)
    (testNumber : Int) (questions : List ADraftQ) :
    ∀ p ∈ (postDrafts db title subject testNumber questions).2.draftExams,
      p ∈ db.draftExams ∨ p.2.totalQuestions = p.2.questions.length := by
  intro p hp
  by_cases hq : questions.length = 0
  · left; simpa [postDrafts, hq] using hp
  · simp only [postDrafts, hq, if_neg, if_false] at hp
    rcases hfind : db.draftExams.find? (fun pr => pr.2.title = title) with _ | ⟨i, d⟩
    · rw [hfind] at hp
      simp only at hp
      rcases (List.mem_append.mp hp) with h | h
      · exact Or.inl h
      · right
        simp only [List.mem_singleton] at h
        subst h; rfl
    · rw [hfind] at hp
      simp only [replaceById, List.mem_map] at hp
      obtain ⟨q, hq2, hq3⟩ := hp
      by_cases hid : q.1 = i
      · right; simp [hid] at hq3; subst hq3; rfl
      · left
        rw [if_neg hid] at hq3
        exact hq3 ▸ hq2

/-- `POST /conduct/:draftId` copies `totalQuestions` and `questions`
verbatim from the draft: every exam in the successor store either was
already there or is the image of the located draft. -/
theorem conduct_preserves_wf (db : AuthoringDB) (id : Nat) :
    ∀ e ∈ (conduct db id).2.exams,
      e ∈ db.exams ∨
      ∃ d, lookupById db.draftExams id = some d ∧ e = examOfDraft d ∧
        e.totalQuestions = d.totalQuestions ∧ e.questions = d.questions := by
  intro e he
  rcases hfind : lookupById db.draftExams id with _ | d
  · left; simpa [conduct, hfind] using he
  · simp only [conduct, hfind] at he
    by_cases hex : (db.exams.find? fun ex => ex.title = d.title).isSome
    · left; simpa [hex] using he
    · simp only [hex, Bool.false_eq_true, if_false] at he
      rcases (List.mem_append.mp he) with h | h
      · exact Or.inl h
      · right
        simp only [List.mem_singleton] at h
        exact ⟨d, rfl, h, by simp [h, examOfDraft], by simp [h, examOfDraft]⟩

/-! ## Claim C1: scoring determinism on a fixed answer key -/

/-- C1.  For every live Exam whose stored correct answers are
`["A","B","C","D"]` (a live exam satisfies `totalQuestions =
questions.length`: every creation path stores that equation, see
`postDrafts_wf` and `conduct_preserves_wf`) and the submission
`["A","b","C","X"]`, the case-insensitive submit-exam scoring of
`src/backend/server.js` computes `correct = 3`, `wrong = 1` and
`total = 4`, while the case-sensitive variant of part_003 computes
`correct = 2` on the same stored answers and submission. -/
theorem scoring_determinism_fixed_key
    (e : SExam) (qs3 : List P3Question) (m n : String)
    (hwf : e.totalQuestions = e.questions.length)
    (hans : e.questions.map SExamQ.correctAnswer = ["A", "B", "C", "D"])
    (hans3 : qs3.map P3Question.correctAnswer = [some "A", some "B", some "C", some "D"]) :
    (submitResultOf e 0 ⟨some 0, ["A", "b", "C", "X"], m, n⟩).correct = 3 ∧
    (submitResultOf e 0 ⟨some 0, ["A", "b", "C", "X"], m, n⟩).wrong = 1 ∧
    (submitResultOf e 0 ⟨some 0, ["A", "b", "C", "X"], m, n⟩).total = 4 ∧
    countCorrectCS qs3 ["A", "b", "C", "X"] = 2 := by
  have hlen : e.questions.length = 4 := by
    have h := congrArg List.length hans
    simpa using h
  have hci : countCorrectCI e.questions ["A", "b", "C", "X"] = 3 := by
    rw [countCorrectCI_eq_countAnsCI, hans]; decide
  have hcs : countCorrectCS qs3 ["A", "b", "C", "X"] = 2 := by
    rw [countCorrectCS_eq_countAnsCS, hans3]; decide
  refine ⟨?_, ?_, ?_, hcs⟩ <;>
    simp [submitResultOf, hci, hwf, hlen]

/-- Witness for C1 at the concrete exam `c1Exam`. -/
theorem scoring_determinism_fixed_key_witness :
    (submitResultOf c1Exam 0 ⟨some 0, ["A", "b", "C", "X"], "m", "n"⟩).correct = 3 ∧
    (submitResultOf c1Exam 0 ⟨some 0, ["A", "b", "C", "X"], "m", "n"⟩).wrong = 1 ∧
    (submitResultOf c1Exam 0 ⟨some 0, ["A", "b", "C", "X"], "m", "n"⟩).total = 4 ∧
    countCorrectCS c1P3Qs ["A", "b", "C", "X"] = 2 :=
  scoring_determinism_fixed_key c1Exam c1P3Qs "m" "n" (by decide) (by decide) (by decide)

/-! ## Claim C5: length-mismatch policy of the scoring loop -/

lemma countCorrectCI_take_answers (qs : List SExamQ) (ans : List String) :
    countCorrectCI qs ans = countCorrectCI qs (ans.take qs.length) := by
  induction qs generalizing ans with
  | nil => cases ans <;> rfl
  | cons q qs ih =>
    cases ans with
    | nil => rfl
    | cons a as => simp [countCorrectCI, List.take_succ_cons, ih as]

lemma countCorrectCI_take_questions (qs : List SExamQ) (ans : List String) :
    countCorrectCI qs ans = countCorrectCI (qs.take ans.length) ans := by
  induction qs generalizing ans with
  | nil => cases ans <;> rfl
  | cons q qs ih =>
    cases ans with
    | nil => simp [countCorrectCI, countCorrectCI_nil_ans]
    | cons a as => simp [countCorrectCI, List.take_succ_cons, ih as]

/-- C5.  The case-insensitive scoring loop is a total function (no
error is raised for any length combination); entries of `answers` at
indices at or past the number of questions are ignored, and questions
at indices at or past `answers.length` count as non-matches, so the
computed correct count depends only on the entries at indices below the
number of questions. -/
theorem submit_answers_length_policy (qs : List SExamQ) (ans : List String) :
    countCorrectCI qs ans = countCorrectCI qs (ans.take qs.length) ∧
    countCorrectCI qs ans = countCorrectCI (qs.take ans.length) ans :=
  ⟨countCorrectCI_take_answers qs ans, countCorrectCI_take_questions qs ans⟩

/-! ## Claim C10: the persisted Result arithmetic invariant -/

/-- C10.  Every `Result` persisted by the case-insensitive submit-exam
handler satisfies `correct + wrong = total`, with `total` and `wrong`
derived from the stored `totalQuestions` field of the exam rather than
from the length of the scored question list; in particular `wrong` is
negative whenever `totalQuestions` is smaller than the number of
matching answers. -/
theorem submit_result_arithmetic
    (db : ScoringDB) (req : SubmitReq) (eid : Nat) (exam : SExam)
    (hid : req.examId = some eid)
    (hex : lookupById db.exams eid = some exam) :
    (submitExam db req).2.results = db.results ++ [submitResultOf exam eid req] ∧
    (submitResultOf exam eid req).correct + (submitResultOf exam eid req).wrong
      = (submitResultOf exam eid req).total ∧
    (submitResultOf exam eid req).total = exam.totalQuestions ∧
    (submitResultOf exam eid req).wrong
      = exam.totalQuestions - countCorrectCI exam.questions req.answers ∧
    (exam.totalQuestions < (countCorrectCI exam.questions req.answers : Int) →
      (submitResultOf exam eid req).wrong < 0) := by
  refine ⟨?_, ?_, rfl, rfl, ?_⟩
  · simp [submitExam, hid, hex]
  · simp [submitResultOf]
  · intro h; simp [submitResultOf]; omega

/-- Witness for C10 at `c10DB`: the exam stores `totalQuestions = 0`
while one answer matches, and the persisted `wrong` is `-1`. -/
theorem submit_result_arithmetic_witness :
    ((submitExam c10DB c10Req).2.results
        = c10DB.results ++ [submitResultOf c10Exam 1 c10Req] ∧
      (submitResultOf c10Exam 1 c10Req).correct + (submitResultOf c10Exam 1 c10Req).wrong
        = (submitResultOf c10Exam 1 c10Req).total ∧
      (submitResultOf c10Exam 1 c10Req).total = c10Exam.totalQuestions ∧
      (submitResultOf c10Exam 1 c10Req).wrong
        = c10Exam.totalQuestions - countCorrectCI c10Exam.questions c10Req.answers ∧
      (c10Exam.totalQuestions < (countCorrectCI c10Exam.questions c10Req.answers : Int) →
        (submitResultOf c10Exam 1 c10Req).wrong < 0)) ∧
    (submitResultOf c10Exam 1 c10Req).wrong = -1 :=
  ⟨submit_result_arithmetic c10DB c10Req 1 c10Exam (by decide) (by decide), by decide⟩

/-! ## Claim C6: the duplicate-submission guard of part_003 -/

/-- C6.  In the variants enforcing the duplicate-submission check
(modelled from part_003), starting from a store where the (student,
exam) pair has no `Result` yet, the first submit call succeeds and
persists exactly one `Result` for the pair, and a second sequential
call is rejected with the conflict response `400 "You have already
submitted this exam"` and leaves the store unchanged (no second
`Result`). -/
theorem duplicate_submission_guard
    (db : P3DB) (m n : String) (eid : Nat) (ans : List String) (exam : P3Exam)
    (hex : lookupById db.exams eid = some exam)
    (hnew : db.results.find? (fun r => r.studentMobile = m && r.examId = eid) = none) :
    (submitExamP3 db m n eid ans).1 = ⟨200, "Exam submitted successfully"⟩ ∧
    ((submitExamP3 db m n eid ans).2.results.countP
        fun r => r.studentMobile = m && r.examId = eid) = 1 ∧
    (submitExamP3 (submitExamP3 db m n eid ans).2 m n eid ans).1
      = ⟨400, "You have already submitted this exam"⟩ ∧
    (submitExamP3 (submitExamP3 db m n eid ans).2 m n eid ans).2
      = (submitExamP3 db m n eid ans).2 := by
  have hres : (submitResultOfP3 exam eid m n ans).studentMobile = m ∧
      (submitResultOfP3 exam eid m n ans).examId = eid := by
    simp [submitResultOfP3]
  have hstep : submitExamP3 db m n eid ans =
      (⟨200, "Exam submitted successfully"⟩,
        { db with results := db.results ++ [submitResultOfP3 exam eid m n ans] }) := by
    simp [submitExamP3, hex, hnew]
  have hcount0 : (db.results.countP fun r => r.studentMobile = m && r.examId = eid) = 0 := by
    rw [List.countP_eq_zero]
    intro r hr
    have := List.find?_eq_none.mp hnew r hr
    simpa using this
  refine ⟨by rw [hstep], ?_, ?_, ?_⟩
  · rw [hstep]
    simp only [List.countP_append, hcount0, Nat.zero_add]
    simp [List.countP, List.countP.go, hres.1, hres.2]
  · rw [hstep]
    simp [submitExamP3, hex, hres.1, hres.2]
  · rw [hstep]
    simp [submitExamP3, hex, hres.1, hres.2]

/-- Witness for C6 at the concrete store `c6DB`. -/
theorem duplicate_submission_guard_witness :
    (submitExamP3 c6DB "9" "N" 1 ["A"]).1 = ⟨200, "Exam submitted successfully"⟩ ∧
    ((submitExamP3 c6DB "9" "N" 1 ["A"]).2.results.countP
        fun r => r.studentMobile = "9" && r.examId = 1) = 1 ∧
    (submitExamP3 (submitExamP3 c6DB "9" "N" 1 ["A"]).2 "9" "N" 1 ["A"]).1
      = ⟨400, "You have already submitted this exam"⟩ ∧
    (submitExamP3 (submitExamP3 c6DB "9" "N" 1 ["A"]).2 "9" "N" 1 ["A"]).2
      = (submitExamP3 c6DB "9" "N" 1 ["A"]).2 :=
  duplicate_submission_guard c6DB "9" "N" 1 ["A"]
    ⟨"T", "S", none, 1, 1, [⟨"", [], some "A", none⟩]⟩ (by decide) (by decide)

/-! ## Claim C8 (corrected): login failure classes -/

/-- C8 counterexample.  The claim says the failure response does not
distinguish the no-such-user case from the wrong-password case; in the
plaintext variant of `src/backend/server.js` the two responses carry
the same message but different status codes (404 versus 401), so they
are distinguishable. -/
theorem login_distinguish_counterexample :
    studentLoginBackend c8Students "8888888888" "pw"
      = .failure 404 "Invalid credentials" ∧
    studentLoginBackend c8Students "9999999999" "xx"
      = .failure 401 "Invalid credentials" ∧
    studentLoginBackend c8Students "8888888888" "pw"
      ≠ studentLoginBackend c8Students "9999999999" "xx" := by
  decide

/-- C8 amended.  A login attempt with an existing key and a wrong
(nonempty, in the plaintext variant) password fails with a 401
unauthorized error in both variants, never a server error; the bcrypt
variant (part_003) returns the identical 401 response for a missing
user and a wrong password, while the plaintext variant returns the same
message but status 404 for a missing user. -/
theorem login_failure_classes
    (compare : String → String → Bool) (students : List Student)
    (mobile pw : String) (s : Student) :
    (mobile ≠ "" → pw ≠ "" →
      students.find? (fun st => st.mobile = mobile) = some s → s.password ≠ pw →
      studentLoginBackend students mobile pw = .failure 401 "Invalid credentials") ∧
    (mobile ≠ "" → pw ≠ "" →
      students.find? (fun st => st.mobile = mobile) = none →
      studentLoginBackend students mobile pw = .failure 404 "Invalid credentials") ∧
    (students.find? (fun st => st.mobile = mobile) = some s →
      compare pw s.password = false →
      studentLoginP3 compare students mobile pw = .failure 401 "Invalid mobile or password") ∧
    (students.find? (fun st => st.mobile = mobile) = none →
      studentLoginP3 compare students mobile pw = .failure 401 "Invalid mobile or password") := by
  refine ⟨?_, ?_, ?_, ?_⟩
  · intro hm hp hfind hpw
    simp [studentLoginBackend, hm, hp, hfind, hpw]
  · intro hm hp hfind
    simp [studentLoginBackend, hm, hp, hfind]
  · intro hfind hcmp
    simp [studentLoginP3, hfind, hcmp]
  · intro hfind
    simp [studentLoginP3, hfind]

/-- Witness for the amended C8: concrete instances of all four failure
branches on the directory `c8Students`. -/
theorem login_failure_classes_witness :
    studentLoginBackend c8Students "9999999999" "xx" = .failure 401 "Invalid credentials" ∧
    studentLoginBackend c8Students "8888888888" "pw" = .failure 404 "Invalid credentials" ∧
    studentLoginP3 (fun a b => a = b) c8Students "9999999999" "xx"
      = .failure 401 "Invalid mobile or password" ∧
    studentLoginP3 (fun a b => a = b) c8Students "8888888888" "pw"
      = .failure 401 "Invalid mobile or password" :=
  ⟨(login_failure_classes (fun a b => a = b) c8Students "9999999999" "xx"
      ⟨"Alice", "1", "9999999999", "pw"⟩).1 (by decide) (by decide) (by decide) (by decide),
   (login_failure_classes (fun a b => a = b) c8Students "8888888888" "pw"
      ⟨"Alice", "1", "9999999999", "pw"⟩).2.1 (by decide) (by decide) (by decide),
   (login_failure_classes (fun a b => a = b) c8Students "9999999999" "xx"
      ⟨"Alice", "1", "9999999999", "pw"⟩).2.2.1 (by decide) (by decide),
   (login_failure_classes (fun a b => a = b) c8Students "8888888888" "pw"
      ⟨"Alice", "1", "9999999999", "pw"⟩).2.2.2 (by decide)⟩

/-! ## Claim C7 (corrected): set-answer validation -/

/-- C7 counterexample.  The claim says an invalid index fails with a
not-found error; in `src/backend/server.js` an out-of-range index is
rejected with the validation response `400 "Invalid index"`, not a 404:
draft 1 of `c7DB` has one question and index 5 is out of range. -/
theorem set_answer_invalid_index_counterexample :
    (setAnswer c7DB 1 (some 5) "a").1 = ⟨400, "Invalid index"⟩ ∧
    (setAnswer c7DB 1 (some 5) "a").1.status ≠ 404 := by
  decide

/-- C7 amended.  Set-answer (second `src/backend/server.js` document)
bounds-checks the index against the draft's question count and
normalizes the answer letter to uppercase before persisting; a missing
index or falsy answer gives `400 "Invalid data"`, an unknown draft id
gives the not-found error `404 "Draft not found"`, and an out-of-range
index gives the validation error `400 "Invalid index"` (not a 404). -/
theorem set_answer_validation
    (db : AuthoringDB) (id : Nat) (qi : Int) (ca : String) (draft : PdfDraft) :
    (setAnswer db id none ca = (⟨400, "Invalid data"⟩, db)) ∧
    (setAnswer db id (some qi) "" = (⟨400, "Invalid data"⟩, db)) ∧
    (ca ≠ "" → lookupById db.pdfDrafts id = none →
      setAnswer db id (some qi) ca = (⟨404, "Draft not found"⟩, db)) ∧
    (ca ≠ "" → lookupById db.pdfDrafts id = some draft →
      (qi < 0 ∨ (draft.questions.length : Int) ≤ qi) →
      setAnswer db id (some qi) ca = (⟨400, "Invalid index"⟩, db)) ∧
    (ca ≠ "" → lookupById db.pdfDrafts id = some draft →
      0 ≤ qi → qi < (draft.questions.length : Int) →
      setAnswer db id (some qi) ca =
        (⟨200, "Updated"⟩,
          { db with pdfDrafts :=
              replaceById db.pdfDrafts id (draftWithAnswer draft qi.toNat ca) })) := by
  refine ⟨rfl, by simp [setAnswer], ?_, ?_, ?_⟩
  · intro hca hfind
    simp [setAnswer, hca, hfind]
  · intro hca hfind hout
    have hcond : (decide (qi < 0) || decide ((draft.questions.length : Int) ≤ qi)) = true := by
      rcases hout with h | h <;> simp [h]
    simp [setAnswer, hca, hfind, hcond]
  · intro hca hfind h0 hlt
    have hc1 : ¬ (qi < 0) := not_lt.mpr h0
    have hc2 : ¬ ((draft.questions.length : Int) ≤ qi) := not_le.mpr hlt
    simp [setAnswer, hca, hfind, hc1, hc2]

/-- Witness for the amended C7: on `c7DB`, setting answer "a" for
question 0 succeeds and persists the uppercased letter "A". -/
theorem set_answer_validation_witness :
    (setAnswer c7DB 1 (some 0) "a" =
      (⟨200, "Updated"⟩,
        { c7DB with pdfDrafts := replaceById c7DB.pdfDrafts 1 (draftWithAnswer ⟨"T", "S", 1, [⟨"Q", ["A) x"], none⟩]⟩ 0 "a") })) ∧
    ((lookupById (setAnswer c7DB 1 (some 0) "a").2.pdfDrafts 1).map
        fun d => d.questions.map PdfQ.correctAnswer) = some [some "A"] :=
  ⟨(set_answer_validation c7DB 1 0 "a" ⟨"T", "S", 1, [⟨"Q", ["A) x"], none⟩]⟩).2.2.2.2
      (by decide) (by decide) (by decide) (by decide),
   by decide⟩

/-! ## Claim C3 (corrected): finalize of a PDF draft -/

/-- C3 counterexample.  The claim says a successful finalize produces
exactly one new Exam record; on `c3DB` (one fully answered PDF draft,
no exams) finalize succeeds but the `Exam` collection stays empty: the
record it creates is a standard `DraftExam`. -/
theorem finalize_creates_draft_not_exam :
    (finalize c3DB 1).1.status = 200 ∧
    (finalize c3DB 1).2.exams = [] ∧
    (finalize c3DB 1).2.draftExams.length = 1 := by
  decide

/-- C3 amended.  For every stored PDF draft, finalize
(second `src/backend/server.js` document) rejects the request with
`400 "Missing answers"` while any question's `correctAnswer` is still
unset (leaving the store unchanged), and once every answer is set it
succeeds, appending exactly one new standard `DraftExam` copied from
the draft and deleting the source PDF draft.  (The `Exam` record of the
original claim is only created later by conduct.) -/
theorem finalize_answer_coverage
    (db : AuthoringDB) (id : Nat) (d : PdfDraft)
    (hfind : lookupById db.pdfDrafts id = some d) :
    ((d.questions.any fun q => jsFalsyOptStr q.correctAnswer) = true →
      finalize db id = (⟨400, "Missing answers"⟩, db)) ∧
    ((d.questions.any fun q => jsFalsyOptStr q.correctAnswer) = false →
      finalize db id =
        (⟨200, "Finalized"⟩,
          { db with draftExams := db.draftExams ++ [(db.nextId, draftOfPdf d)],
                    pdfDrafts := eraseById db.pdfDrafts id,
                    nextId := db.nextId + 1 })) := by
  constructor
  · intro hany
    simp [finalize, hfind, hany]
  · intro hany
    simp [finalize, hfind, hany]

/-- Witness for the amended C3: the fully answered draft of `c3DB` is
finalized into one `DraftExam`; the draft of `c3DBNull` with a null
answer is rejected. -/
theorem finalize_answer_coverage_witness :
    (finalize c3DB 1 =
      (⟨200, "Finalized"⟩,
        { c3DB with draftExams := c3DB.draftExams ++ [(c3DB.nextId, draftOfPdf c3PdfDraft)],
                    pdfDrafts := eraseById c3DB.pdfDrafts 1,
                    nextId := c3DB.nextId + 1 })) ∧
    finalize c3DBNull 1 = (⟨400, "Missing answers"⟩, c3DBNull) :=
  ⟨(finalize_answer_coverage c3DB 1 c3PdfDraft (by decide)).2 (by decide),
   (finalize_answer_coverage c3DBNull 1 c3PdfDraftNull (by decide)).1 (by decide)⟩

/-! ## Claim C4 (corrected): conduct is one-shot -/

lemma lookupById_eq_none_of_not_mem {α : Type} (l : List (Nat × α)) (i : Nat)
    (h : i ∉ l.map Prod.fst) : lookupById l i = none := by
  induction l with
  | nil => rfl
  | cons p t ih =>
    simp only [List.map_cons, List.mem_cons] at h
    push_neg at h
    have hne : (decide (p.1 = i)) = false := by
      simp only [decide_eq_false_iff_not]
      exact fun hc => h.1 hc.symm
    simp only [lookupById, List.find?_cons, hne]
    exact ih h.2

lemma lookupById_eraseById_self {α : Type} (l : List (Nat × α)) (i : Nat)
    (hnd : (l.map Prod.fst).Nodup) : lookupById (eraseById l i) i = none := by
  induction l with
  | nil => rfl
  | cons p t ih =>
    simp only [List.map_cons, List.nodup_cons] at hnd
    by_cases hpi : p.1 = i
    · have : eraseById (p :: t) i = t := by
        simp [eraseById, List.eraseP_cons, hpi]
      rw [this]
      exact lookupById_eq_none_of_not_mem t i (hpi ▸ hnd.1)
    · have : eraseById (p :: t) i = p :: eraseById t i := by
        simp [eraseById, List.eraseP_cons, hpi]
      rw [this]
      have hne : (decide (p.1 = i)) = false := by simpa using hpi
      simp only [lookupById, List.find?_cons, hne]
      exact ih hnd.2

/-- C4 counterexample.  The claim says a second conduct call on the
now-missing draft id returns a not-found error; in part_005 the handler
has no existence check, so on `c4P5DB` the first call succeeds
(deleting draft 1) and the second call throws a `TypeError` on
`draft.toObject()` and produces no response at all (`none`), not a
not-found error. -/
theorem conduct_missing_draft_throws_counterexample :
    conductP5 c4P5DB 1 = some (⟨200, "Live!"⟩, c4P5DB1) ∧
    conductP5 c4P5DB1 1 = none := by
  decide

/-- C4 amended.  In the conduct variant of the first
`src/backend/server.js` document (the one with both the
draft-existence check and the duplicate-title guard), promotion is
one-shot: for every stored draft (ids unique, as MongoDB guarantees),
after a successful conduct call the source draft no longer exists,
exactly one exam with the draft's title exists, and a second conduct
call with the same id returns `404 "Draft not found"` and changes
nothing.  The part_005 variant lacks the existence check and instead
throws on the second call (see the counterexample). -/
theorem conduct_one_shot
    (db : AuthoringDB) (id : Nat) (d : ADraft)
    (hnd : (db.draftExams.map Prod.fst).Nodup)
    (hfind : lookupById db.draftExams id = some d)
    (hok : (conduct db id).1.status = 200) :
    lookupById (conduct db id).2.draftExams id = none ∧
    ((conduct db id).2.exams.countP fun e => e.title = d.title) = 1 ∧
    conduct (conduct db id).2 id = (⟨404, "Draft not found"⟩, (conduct db id).2) := by
  have hex : (db.exams.find? fun e => e.title = d.title).isSome = false := by
    by_cases h : (db.exams.find? fun e => e.title = d.title).isSome = true
    · exfalso
      have : (conduct db id).1.status = 400 := by simp [conduct, hfind, h]
      omega
    · simpa using h
  have hstep : conduct db id =
      (⟨200, "Exam conducted successfully!"⟩,
        { db with exams := db.exams ++ [examOfDraft d],
                  draftExams := eraseById db.draftExams id }) := by
    simp [conduct, hfind, hex]
  have hcount0 : (db.exams.countP fun e => e.title = d.title) = 0 := by
    rw [List.countP_eq_zero]
    intro e he
    have hnone : db.exams.find? (fun e => e.title = d.title) = none := by
      cases hfe : db.exams.find? fun e => e.title = d.title with
      | none => rfl
      | some x => rw [hfe] at hex; simp at hex
    have := List.find?_eq_none.mp hnone e he
    simpa using this
  refine ⟨?_, ?_, ?_⟩
  · rw [hstep]
    exact lookupById_eraseById_self db.draftExams id hnd
  · rw [hstep]
    simp only [List.countP_append, hcount0, Nat.zero_add]
    simp [List.countP, List.countP.go, examOfDraft]
  · have hgone : lookupById (eraseById db.draftExams id) id = none :=
      lookupById_eraseById_self db.draftExams id hnd
    rw [hstep]
    simp [conduct, hgone]

/-- Witness for the amended C4 on the concrete store `c4DB`. -/
theorem conduct_one_shot_witness :
    lookupById (conduct c4DB 1).2.draftExams 1 = none ∧
    ((conduct c4DB 1).2.exams.countP fun e => e.title = "T") = 1 ∧
    conduct (conduct c4DB 1).2 1 = (⟨404, "Draft not found"⟩, (conduct c4DB 1).2) :=
  conduct_one_shot c4DB 1 ⟨"T", "S", none, 1, 1, [⟨none, some "A"⟩]⟩
    (by decide) (by decide) (by decide)

/-! ## Claim C2: the minimum-option-count policy of the extractors -/

/-- C2.  For every input text, the stricter extractor
(`parseQuestionsFromText` of `src/backend/server.js`) keeps exactly the
parsed question blocks that collected at least 3 option lines,
excluding every block with fewer; the relaxed part_004 extractor
instead keeps a processed block with fewer than 3 recognized option
lines, substituting the placeholder options
`"A) ", "B) ", "C) ", "D) "`. -/
theorem extractor_min_option_policy :
    (∀ raw q, q ∈ parseQuestionsFromText raw ↔
        q ∈ collectQuestions raw ∧ 3 ≤ q.options.length) ∧
    (∀ n c rest, jsIsNumeric (jsTrim n) = true → c ≠ "" →
      (recognizedOptions c).length < 3 →
      relaxedLoop (n :: c :: rest)
        = (relaxedLoop rest).map fun qs => placeholderQuestion c :: qs) := by
  constructor
  · intro raw q
    simp [parseQuestionsFromText, List.mem_filter]
  · intro n c rest hnum hne hlt
    have h2 : ¬ (2 < (recognizedOptions c).length) := by omega
    simp [relaxedLoop, hnum, hne, h2, placeholderQuestion]

/-- Witness for C2: a numeric block whose content has no recognized
option lines is kept with the placeholder options. -/
theorem extractor_min_option_policy_witness :
    jsIsNumeric (jsTrim "123456") = true ∧
    (recognizedOptions "What is two plus two").length < 3 ∧
    relaxedLoop ["123456", "What is two plus two"]
      = some [placeholderQuestion "What is two plus two"] := by
  refine ⟨by decide, by decide, ?_⟩
  have h := extractor_min_option_policy.2 "123456" "What is two plus two" []
    (by decide) (by decide) (by decide)
  simpa [relaxedLoop] using h

/-! ## Claim C9 (corrected): the output cap -/

